import Mathlib

/-! Verification development for the GSAC MQTT air-conditioner integration.

The definitions below are a shallow embedding of the Python sources under
`custom_components/gsac/` (plus the shared base class `gsac/base.py`):

* `const.py`   — codec tables between wire codes and domain values;
* `__init__.py`— the `DeviceAvailabilityManager` and its connectivity handler;
* `base.py`    — the shared `GSACBaseEntity.on_availability_changed` logic;
* `climate.py` — the `PolarisClimateEntity` state machine;
* `sensor.py`, `number.py`, `select.py`, `switch.py` — the thinner entities.

Modelling conventions:

* Python floats are modelled as rationals (`ℚ`); every value handled by the
  claims (integer temperatures, halves such as `35.5`) is represented exactly
  in binary floating point, so no float-specific behaviour is in play.
* `float(payload)` is modelled by `parseDecimal`, covering plain decimal
  literals (optional sign, digits, optional fractional part); it fails on
  non-numeric payloads such as `"abc"`, exactly as `float` raises
  `ValueError` there.
* Python 3's `round` uses round-half-to-even; `pythonRound` implements it.
* MQTT publishes are returned as an ordered list of (topic key, payload)
  pairs, where the topic key is the `MQTT_TOPICS` dictionary key of the
  templated topic actually published to (the device id is fixed throughout,
  so the key determines the topic).
* `hass.async_create_task(...)` (the deferred fan-speed correction) is
  modelled by returning a `Bool` saying whether the task was spawned; the
  task body `_correct_fan_speed_for_mode` is a separate function that the
  scenario theorems run explicitly at the chosen interleaving point.
-/

/-- Digit string to natural number, most significant digit first. -/
def digitsToNat (cs : List Char) : ℕ :=
  cs.foldl (fun a c => 10 * a + (c.toNat - 48)) 0

/-- Split a character list at every occurrence of `'.'`
(the character-level analogue of `splitOn "."`). -/
def splitDot : List Char → List (List Char)
  | [] => [[]]
  | c :: rest =>
    match splitDot rest with
    | [] => [[]]
    | h :: t => if c = '.' then [] :: h :: t else (c :: h) :: t

/-- Model of Python `float(payload)` restricted to plain decimal literals:
an optional sign, then digits with an optional single decimal point
(at least one digit overall).  Returns the exact rational value denoted,
and `none` where `float` raises `ValueError` (e.g. on `"abc"` or `""`). -/
def parseDecimal (payload : String) : Option ℚ :=
  let (sign, body) : ℤ × List Char :=
    match payload.data with
    | '-' :: rest => (-1, rest)
    | '+' :: rest => (1, rest)
    | cs => (1, cs)
  match splitDot body with
  | [intPart] =>
      if intPart.length > 0 && intPart.all Char.isDigit then
        some (mkRat (sign * digitsToNat intPart) 1)
      else none
  | [intPart, fracPart] =>
      if (intPart.length > 0 || fracPart.length > 0)
          && intPart.all Char.isDigit && fracPart.all Char.isDigit then
        some (mkRat
          (sign * (digitsToNat intPart * 10 ^ fracPart.length
                    + digitsToNat fracPart))
          (10 ^ fracPart.length))
      else none
  | _ => none

/-- Python 3 `round` to an integer: round half to even. -/
def pythonRound (q : ℚ) : ℤ :=
  let f := ⌊q⌋
  let r := q - (f : ℚ)
  if r < 1/2 then f
  else if r > 1/2 then f + 1
  else if f % 2 = 0 then f else f + 1

/-! Section: Constants from `const.py` -/

def TEMP_MIN : ℚ := 16
def TEMP_MAX : ℚ := 30
def TEMP_DEFAULT : ℚ := 22

def CONNECTED_ONLINE : String := "1"
def CONNECTED_OFFLINE : String := "0"

/-- The `MODE_MAPPING` from `const.py`: wire code ↦ (HA mode, human label).
The icon column is display-only and omitted. -/
def MODE_MAPPING : List (String × String × String) :=
  [ ("0", "off", "Выключено"),
    ("1", "auto", "Авто"),
    ("2", "cool", "Холод"),
    ("3", "dry", "Осушение"),
    ("4", "heat", "Тепло"),
    ("5", "fan_only", "Вентиляция") ]

def MODE_SELECT_OPTIONS : List (String × String) :=
  MODE_MAPPING.map (fun p => (p.1, p.2.2))

def HA_TO_MQTT_MODES : List (String × String) :=
  MODE_MAPPING.map (fun p => (p.2.1, p.1))

def MQTT_TO_HA_MODES : List (String × String) :=
  MODE_MAPPING.map (fun p => (p.1, p.2.1))

/-- The `FAN_SPEEDS` from `const.py`: wire code ↦ (HA value, human label). -/
def FAN_SPEEDS : List (String × String × String) :=
  [ ("0", "auto", "Авто"),
    ("1", "low", "Низкая"),
    ("2", "medium", "Средняя"),
    ("3", "high", "Высокая") ]

def FAN_SELECT_OPTIONS : List (String × String) :=
  FAN_SPEEDS.map (fun p => (p.1, p.2.2))

def HA_TO_MQTT_FAN : List (String × String) :=
  FAN_SPEEDS.map (fun p => (p.2.1, p.1))

def MQTT_TO_HA_FAN : List (String × String) :=
  FAN_SPEEDS.map (fun p => (p.1, p.2.1))

def FAN_AUTO : String := "auto"
def FAN_LOW : String := "low"
def FAN_MEDIUM : String := "medium"
def FAN_HIGH : String := "high"

/-- The `SWING_MODES` from `const.py`: wire code ↦ (HA value, human label). -/
def SWING_MODES : List (String × String × String) :=
  [ ("1", "on", "Включены"),
    ("0", "off", "Выключены") ]

def HA_TO_MQTT_SWING : List (String × String) :=
  SWING_MODES.map (fun p => (p.2.1, p.1))

def MQTT_TO_HA_SWING : List (String × String) :=
  SWING_MODES.map (fun p => (p.1, p.2.1))

def SWING_ON : String := "on"
def SWING_OFF : String := "off"
def BLINDS_ON : String := "1"
def BLINDS_OFF : String := "0"

/-! Section: `DeviceAvailabilityManager` (`__init__.py`) -/

/-- The `availability_received` callback of `DeviceAvailabilityManager.setup`.
State is the manager's `_available` flag.  Returns the new flag and whether
the notification fan-out ran (i.e. `on_availability_changed(new_available)`
was scheduled for every registered entity).  Faithful to the source:
`new_available = payload == CONNECTED_ONLINE`, and the fan-out runs exactly
when `new_available != self._available`. -/
def availability_received (available : Bool) (payload : String) : Bool × Bool :=
  let new_available := payload == CONNECTED_ONLINE
  if new_available != available then (new_available, true)
  else (available, false)

/-! Section: Shared entity lifecycle (`base.py`) -/

/-- Observable side effects of `GSACBaseEntity.on_availability_changed`,
in the order the source performs them. -/
inductive EntityAction where
  | setupSubscriptions
  | teardownSubscriptions
  | resetState
  | writeState
deriving DecidableEq, Repr

/-- The `GSACBaseEntity.on_availability_changed`, shared by every entity.
Parameterised by the subclass's `_available` accessors, by
`_unsubscribe_mqtt` (clears the recorded subscription handles) and by the
subclass's `_reset_state` override.  Returns the new entity state together
with the ordered trace of lifecycle effects. -/
def on_availability_changed_base {σ : Type}
    (getAvail : σ → Bool) (setAvail : σ → Bool → σ)
    (unsubscribeAll : σ → σ) (resetFn : σ → σ)
    (s : σ) (available : Bool) : σ × List EntityAction :=
  if getAvail s = available then (s, [])
  else
    let s := setAvail s available
    if available then
      (s, [EntityAction.setupSubscriptions, EntityAction.writeState])
    else
      (resetFn (unsubscribeAll s),
       [EntityAction.teardownSubscriptions, EntityAction.resetState,
        EntityAction.writeState])

/-! Section: `PolarisClimateEntity` (`climate.py`) -/

/-- The `MQTT_TO_HVAC_MODE` from `climate.py` (HVACMode values as strings). -/
def MQTT_TO_HVAC_MODE : List (String × String) :=
  [ ("0", "off"),
    ("1", "auto"),
    ("2", "cool"),
    ("3", "dry"),
    ("4", "heat"),
    ("5", "fan_only") ]

/-- The mutable fields of `PolarisClimateEntity` relevant to its behaviour.
HVACMode / HVACAction / fan / swing values are the underlying strings of the
Home Assistant enums.  `_attr_current_temperature = none` is Python `None`
("unknown"). -/
structure ClimateState where
  _available : Bool
  _attr_hvac_mode : String
  _attr_fan_mode : String
  _attr_swing_mode : String
  _attr_current_temperature : Option ℚ
  _attr_target_temperature : ℚ
  _current_hvac_action : String
  _previous_fan_mode : String
  _need_fan_auto_correction : Bool
  _mqtt_subscriptions : List String
deriving DecidableEq, Repr

/-- Class-level initial attribute values of `PolarisClimateEntity`
(constructor defaults; `_available` starts `False` via the base class). -/
def ClimateState.initial : ClimateState :=
  { _available := false
    _attr_hvac_mode := "off"
    _attr_fan_mode := FAN_AUTO
    _attr_swing_mode := SWING_OFF
    _attr_current_temperature := none
    _attr_target_temperature := TEMP_MIN
    _current_hvac_action := "off"
    _previous_fan_mode := FAN_AUTO
    _need_fan_auto_correction := false
    _mqtt_subscriptions := [] }

namespace PolarisClimateEntity

/-- The `mode_received` MQTT callback.  Returns the new state and whether a
`_correct_fan_speed_for_mode` task was spawned (`hass.async_create_task`). -/
def mode_received (s : ClimateState) (payload : String) :
    ClimateState × Bool :=
  if s._available = false then (s, false)
  else
    match MQTT_TO_HVAC_MODE.lookup payload with
    | none => (s, false)
    | some new_hvac_mode =>
        let old_hvac_mode := s._attr_hvac_mode
        let s := { s with _attr_hvac_mode := new_hvac_mode }
        let s :=
          if new_hvac_mode = "fan_only" ∧ old_hvac_mode ≠ "fan_only"
              ∧ s._attr_fan_mode = FAN_AUTO then
            { s with _need_fan_auto_correction := true }
          else s
        let action :=
          if payload = "0" then "off"
          else if payload = "2" then "cooling"
          else if payload = "4" then "heating"
          else if payload = "5" then "fan"
          else "idle"
        let s := { s with _current_hvac_action := action }
        (s, s._need_fan_auto_correction)

/-- The `temperature_received` MQTT callback (current room temperature).
On parse failure the value is only logged; state is unchanged. -/
def temperature_received (s : ClimateState) (payload : String) :
    ClimateState :=
  if s._available = false then s
  else
    match parseDecimal payload with
    | some temp => { s with _attr_current_temperature := some temp }
    | none => s

/-- The `target_temperature_received` MQTT callback.  Note: the parsed value
is stored as-is, with no range check and no rounding. -/
def target_temperature_received (s : ClimateState) (payload : String) :
    ClimateState :=
  if s._available = false then s
  else
    match parseDecimal payload with
    | some temp => { s with _attr_target_temperature := temp }
    | none => s

/-- The `fan_speed_received` MQTT callback. -/
def fan_speed_received (s : ClimateState) (payload : String) :
    ClimateState :=
  if s._available = false then s
  else
    match MQTT_TO_HA_FAN.lookup payload with
    | none => s
    | some new_fan_mode =>
        let s :=
          if s._attr_fan_mode ≠ FAN_AUTO then
            { s with _previous_fan_mode := s._attr_fan_mode }
          else s
        let s :=
          if s._need_fan_auto_correction = true ∧ new_fan_mode ≠ FAN_AUTO then
            { s with _need_fan_auto_correction := false }
          else s
        { s with _attr_fan_mode := new_fan_mode }

/-- The `swing_received` MQTT callback. -/
def swing_received (s : ClimateState) (payload : String) : ClimateState :=
  if s._available = false then s
  else
    match MQTT_TO_HA_SWING.lookup payload with
    | none => s
    | some v => { s with _attr_swing_mode := v }

/-- The `_reset_state` override of `PolarisClimateEntity`. -/
def _reset_state (s : ClimateState) : ClimateState :=
  { s with
      _attr_current_temperature := none
      _current_hvac_action := "off"
      _need_fan_auto_correction := false }

/-- The `fan_modes` property: the selectable fan speeds, mode-dependent. -/
def fan_modes (s : ClimateState) : List String :=
  if s._available = false then []
  else if s._attr_hvac_mode = "fan_only" then [FAN_LOW, FAN_MEDIUM, FAN_HIGH]
  else [FAN_AUTO, FAN_LOW, FAN_MEDIUM, FAN_HIGH]

/-- The `hvac_modes` attribute. -/
def hvac_modes : List String :=
  ["off", "auto", "cool", "dry", "heat", "fan_only"]

/-- The `async_set_fan_mode`: validate, publish the wire code on `fan_speed_in`,
then optimistically update the displayed fan mode. -/
def async_set_fan_mode (s : ClimateState) (fan_mode : String) :
    ClimateState × List (String × String) :=
  if s._available = false then (s, [])
  else if fan_mode ∉ fan_modes s then (s, [])
  else if s._attr_hvac_mode = "fan_only" ∧ fan_mode = FAN_AUTO then (s, [])
  else
    match HA_TO_MQTT_FAN.lookup fan_mode with
    | none => (s, [])
    | some mqtt_value =>
        let pubs := [("fan_speed_in", mqtt_value)]
        let s :=
          if fan_mode ≠ FAN_AUTO then { s with _previous_fan_mode := fan_mode }
          else s
        ({ s with _attr_fan_mode := fan_mode }, pubs)

/-- The `async_set_hvac_mode`: on entering fan-only with fan `auto`, first runs
`async_set_fan_mode(FAN_LOW)` inline (its publish precedes the mode
publish), then publishes the mode wire code on `mode_in` and optimistically
updates the displayed mode. -/
def async_set_hvac_mode (s : ClimateState) (hvac_mode : String) :
    ClimateState × List (String × String) :=
  if s._available = false then (s, [])
  else if hvac_mode ∉ hvac_modes then (s, [])
  else
    let old_hvac_mode := s._attr_hvac_mode
    match HA_TO_MQTT_MODES.lookup hvac_mode with
    | none => (s, [])
    | some mqtt_value =>
        let (s, pubs) :=
          if hvac_mode = "fan_only" ∧ old_hvac_mode ≠ "fan_only"
              ∧ s._attr_fan_mode = FAN_AUTO then
            -- inner guard from the source (dead under `fan == auto`):
            let s :=
              if old_hvac_mode ≠ "fan_only" ∧ s._attr_fan_mode ≠ FAN_AUTO then
                { s with _previous_fan_mode := s._attr_fan_mode }
              else s
            async_set_fan_mode s FAN_LOW
          else (s, [])
        let pubs := pubs ++ [("mode_in", mqtt_value)]
        ({ s with _attr_hvac_mode := hvac_mode }, pubs)

/-- The `async_set_temperature`: clamp the requested value to
`[min_temp, max_temp]`, round, publish the integer string on
`temp_comfort_in`, and optimistically display the clamped/rounded value.
`none` models a call without the `temperature` keyword argument. -/
def async_set_temperature (s : ClimateState) (temperature? : Option ℚ) :
    ClimateState × List (String × String) :=
  if s._available = false then (s, [])
  else
    match temperature? with
    | none => (s, [])
    | some temperature =>
        let temperature := max TEMP_MIN (min TEMP_MAX temperature)
        let temperature_int := pythonRound temperature
        ({ s with _attr_target_temperature := (temperature_int : ℚ) },
         [("temp_comfort_in", toString temperature_int)])

/-- The `async_set_swing_mode`. -/
def async_set_swing_mode (s : ClimateState) (swing_mode : String) :
    ClimateState × List (String × String) :=
  if s._available = false then (s, [])
  else if swing_mode ∉ [SWING_ON, SWING_OFF] then (s, [])
  else
    match HA_TO_MQTT_SWING.lookup swing_mode with
    | none => (s, [])
    | some mqtt_value =>
        ({ s with _attr_swing_mode := swing_mode },
         [("backlight_in", mqtt_value)])

/-- The `_correct_fan_speed_for_mode`: the deferred fan-auto correction task. -/
def _correct_fan_speed_for_mode (s : ClimateState) :
    ClimateState × List (String × String) :=
  if s._need_fan_auto_correction = false ∨ s._available = false then (s, [])
  else
    let (s, pubs) :=
      if s._attr_hvac_mode = "fan_only" ∧ s._attr_fan_mode = FAN_AUTO then
        async_set_fan_mode s FAN_LOW
      else (s, [])
    ({ s with _need_fan_auto_correction := false }, pubs)

/-- The `on_availability_changed` as inherited from `GSACBaseEntity`. -/
def on_availability_changed (s : ClimateState) (available : Bool) :
    ClimateState × List EntityAction :=
  on_availability_changed_base
    (fun s => s._available) (fun s b => { s with _available := b })
    (fun s => { s with _mqtt_subscriptions := [] }) _reset_state
    s available

end PolarisClimateEntity

/-! Section: `TemperatureSensor` (`sensor.py`) -/

/-- The mutable fields of a `TemperatureSensor`.  `_is_target_temp` is the
constructor flag distinguishing the target-temperature sensor (which rounds
to an integer) from the current-temperature sensor. -/
structure SensorState where
  _available : Bool
  _is_target_temp : Bool
  _attr_native_value : Option ℚ
  _mqtt_subscriptions : List String
deriving DecidableEq, Repr

namespace TemperatureSensor

/-- The sensor's `message_received` MQTT callback: parse the payload as a
float (rounding to an integer for the target-temperature variant); on parse
failure set the displayed value to `None` ("unknown"). -/
def message_received (s : SensorState) (payload : String) : SensorState :=
  if s._available = false then s
  else
    match parseDecimal payload with
    | some temperature =>
        let temperature :=
          if s._is_target_temp then ((pythonRound temperature : ℤ) : ℚ)
          else temperature
        { s with _attr_native_value := some temperature }
    | none => { s with _attr_native_value := none }

/-- The `_reset_state` override of `TemperatureSensor`. -/
def _reset_state (s : SensorState) : SensorState :=
  { s with _attr_native_value := none }

/-- The `on_availability_changed` as inherited from `GSACBaseEntity`. -/
def on_availability_changed (s : SensorState) (available : Bool) :
    SensorState × List EntityAction :=
  on_availability_changed_base
    (fun s => s._available) (fun s b => { s with _available := b })
    (fun s => { s with _mqtt_subscriptions := [] }) _reset_state
    s available

end TemperatureSensor

/-! Section: `TargetTemperatureNumber` (`number.py`) -/

/-- The mutable fields of `TargetTemperatureNumber`. -/
structure NumberState where
  _available : Bool
  _attr_native_value : ℚ
  _mqtt_subscriptions : List String
deriving DecidableEq, Repr

namespace TargetTemperatureNumber

/-- The number entity's `message_received` MQTT callback: parse, round, and
accept only values inside `[TEMP_MIN, TEMP_MAX]`; otherwise (out of range or
parse failure) the prior displayed value is kept. -/
def message_received (s : NumberState) (payload : String) : NumberState :=
  if s._available = false then s
  else
    match parseDecimal payload with
    | some temperature =>
        let temperature_int := pythonRound temperature
        if TEMP_MIN ≤ (temperature_int : ℚ) ∧ (temperature_int : ℚ) ≤ TEMP_MAX
        then { s with _attr_native_value := (temperature_int : ℚ) }
        else s
    | none => s

/-- The `async_set_native_value`: round the requested value, reject it if it is
outside `[TEMP_MIN, TEMP_MAX]`, otherwise publish the integer string on
`temp_comfort_in` and optimistically display it. -/
def async_set_native_value (s : NumberState) (value : ℚ) :
    NumberState × List (String × String) :=
  if s._available = false then (s, [])
  else
    let temp_int := pythonRound value
    if (temp_int : ℚ) < TEMP_MIN ∨ (temp_int : ℚ) > TEMP_MAX then (s, [])
    else
      ({ s with _attr_native_value := (temp_int : ℚ) },
       [("temp_comfort_in", toString temp_int)])

/-- The `_reset_state` override of `TargetTemperatureNumber`. -/
def _reset_state (s : NumberState) : NumberState :=
  { s with _attr_native_value := TEMP_DEFAULT }

/-- The `on_availability_changed` as inherited from `GSACBaseEntity`. -/
def on_availability_changed (s : NumberState) (available : Bool) :
    NumberState × List EntityAction :=
  on_availability_changed_base
    (fun s => s._available) (fun s b => { s with _available := b })
    (fun s => { s with _mqtt_subscriptions := [] }) _reset_state
    s available

end TargetTemperatureNumber

/-! Section: `ModeSelect` and `FanSpeedSelect` (`select.py`) -/

/-- The mutable fields of a selector entity (`ModeSelect` / `FanSpeedSelect`
share the same shape; each carries the wire code and its display label). -/
structure SelectState where
  _available : Bool
  _current_mqtt : String
  _attr_current_option : String
  _mqtt_subscriptions : List String
deriving DecidableEq, Repr

namespace ModeSelect

/-- The `ModeSelect.message_received`: known wire codes update the stored code
and displayed label; unknown payloads are logged and change nothing. -/
def message_received (s : SelectState) (payload : String) : SelectState :=
  if s._available = false then s
  else
    match MODE_SELECT_OPTIONS.lookup payload with
    | some label =>
        { s with _current_mqtt := payload, _attr_current_option := label }
    | none => s

/-- The `ModeSelect.async_select_option`: inverse lookup of the label; an
unmatched label is rejected, otherwise the wire code is published on
`mode_in` and displayed state updated optimistically. -/
def async_select_option (s : SelectState) (option : String) :
    SelectState × List (String × String) :=
  if s._available = false then (s, [])
  else
    match (MODE_SELECT_OPTIONS.find? (fun p => p.2 = option)).map Prod.fst with
    | none => (s, [])
    | some mqtt_value =>
        ({ s with _current_mqtt := mqtt_value,
                  _attr_current_option := option },
         [("mode_in", mqtt_value)])

/-- The `_reset_state` override of `ModeSelect`: back to mode `"0"`. -/
def _reset_state (s : SelectState) : SelectState :=
  { s with _current_mqtt := "0",
           _attr_current_option :=
             (MODE_SELECT_OPTIONS.lookup "0").getD "Выключено" }

/-- The `on_availability_changed` as inherited from `GSACBaseEntity`. -/
def on_availability_changed (s : SelectState) (available : Bool) :
    SelectState × List EntityAction :=
  on_availability_changed_base
    (fun s => s._available) (fun s b => { s with _available := b })
    (fun s => { s with _mqtt_subscriptions := [] }) _reset_state
    s available

end ModeSelect

namespace FanSpeedSelect

/-- The `FanSpeedSelect.message_received`. -/
def message_received (s : SelectState) (payload : String) : SelectState :=
  if s._available = false then s
  else
    match FAN_SELECT_OPTIONS.lookup payload with
    | some label =>
        { s with _current_mqtt := payload, _attr_current_option := label }
    | none => s

/-- The `FanSpeedSelect.async_select_option`. -/
def async_select_option (s : SelectState) (option : String) :
    SelectState × List (String × String) :=
  if s._available = false then (s, [])
  else
    match (FAN_SELECT_OPTIONS.find? (fun p => p.2 = option)).map Prod.fst with
    | none => (s, [])
    | some mqtt_value =>
        ({ s with _current_mqtt := mqtt_value,
                  _attr_current_option := option },
         [("fan_speed_in", mqtt_value)])

/-- The `_reset_state` override of `FanSpeedSelect`: back to speed `"0"`. -/
def _reset_state (s : SelectState) : SelectState :=
  { s with _current_mqtt := "0",
           _attr_current_option :=
             (FAN_SELECT_OPTIONS.lookup "0").getD "Авто" }

/-- The `on_availability_changed` as inherited from `GSACBaseEntity`. -/
def on_availability_changed (s : SelectState) (available : Bool) :
    SelectState × List EntityAction :=
  on_availability_changed_base
    (fun s => s._available) (fun s b => { s with _available := b })
    (fun s => { s with _mqtt_subscriptions := [] }) _reset_state
    s available

end FanSpeedSelect

/-! Section: `BlindsSwitch` (`switch.py`) -/

/-- The mutable fields of `BlindsSwitch`. -/
structure SwitchState where
  _available : Bool
  _state : Bool
  _mqtt_subscriptions : List String
deriving DecidableEq, Repr

namespace BlindsSwitch

/-- The `BlindsSwitch.message_received`: `"1"` turns the displayed state on,
`"0"` off; any other payload is logged and leaves the state unchanged
(the handler still issues a state-write, which carries the old value). -/
def message_received (s : SwitchState) (payload : String) : SwitchState :=
  if s._available = false then s
  else if payload = BLINDS_ON then { s with _state := true }
  else if payload = BLINDS_OFF then { s with _state := false }
  else s

/-- The `async_turn_on`: publish `BLINDS_ON` on `backlight_in`, then set the
displayed state. -/
def async_turn_on (s : SwitchState) : SwitchState × List (String × String) :=
  if s._available = false then (s, [])
  else ({ s with _state := true }, [("backlight_in", BLINDS_ON)])

/-- The `async_turn_off`. -/
def async_turn_off (s : SwitchState) : SwitchState × List (String × String) :=
  if s._available = false then (s, [])
  else ({ s with _state := false }, [("backlight_in", BLINDS_OFF)])

/-- The `_reset_state` override of `BlindsSwitch`. -/
def _reset_state (s : SwitchState) : SwitchState :=
  { s with _state := false }

/-- The `on_availability_changed` as inherited from `GSACBaseEntity`. -/
def on_availability_changed (s : SwitchState) (available : Bool) :
    SwitchState × List EntityAction :=
  on_availability_changed_base
    (fun s => s._available) (fun s b => { s with _available := b })
    (fun s => { s with _mqtt_subscriptions := [] }) _reset_state
    s available

end BlindsSwitch

/-- The target-temperature invariant: an integer within `[TEMP_MIN, TEMP_MAX]`. -/
def tempInv (q : ℚ) : Prop := q.den = 1 ∧ TEMP_MIN ≤ q ∧ q ≤ TEMP_MAX

instance (q : ℚ) : Decidable (tempInv q) := by
  unfold tempInv; infer_instance

/-! Section: Helper lemmas -/

lemma le_pythonRound (q : ℚ) (hlo : (16:ℚ) ≤ q) : 16 ≤ pythonRound q := by
  have h16 : (16:ℤ) ≤ ⌊q⌋ := Int.le_floor.mpr (by exact_mod_cast hlo)
  simp only [pythonRound]
  split
  · exact h16
  · split
    · omega
    · split <;> omega

lemma pythonRound_le (q : ℚ) (hhi : q ≤ 30) : pythonRound q ≤ 30 := by
  have hfl : (⌊q⌋ : ℚ) ≤ q := Int.floor_le q
  have h30 : ⌊q⌋ ≤ 30 := by
    have h := Int.floor_le_floor (α := ℚ) hhi
    simpa using h
  have key : ¬(q - (⌊q⌋:ℚ) < 1/2) → ⌊q⌋ + 1 ≤ 30 := by
    intro h
    push_neg at h
    by_contra hc
    have h30le : (30:ℤ) ≤ ⌊q⌋ := by omega
    have hcast : (30:ℚ) ≤ (⌊q⌋:ℚ) := by exact_mod_cast h30le
    linarith
  simp only [pythonRound]
  split
  · exact h30
  · rename_i h1
    split
    · exact key h1
    · split
      · exact h30
      · exact key h1

/-! Section: the claims -/

/-- Claim C1 (counterexample): a connectivity payload that is neither the
online sentinel nor the offline sentinel is not ignored while the device is
online: `availability_received` transitions the flag to offline and notifies
every registered entity. -/
theorem C1_counterexample :
    ("garbage" ≠ CONNECTED_ONLINE ∧ "garbage" ≠ CONNECTED_OFFLINE)
    ∧ availability_received true "garbage" = (false, true) := by decide

/-- Claim C1 (amended): any connectivity payload other than the online
sentinel is treated exactly like the offline sentinel: while the flag is
false it causes no transition and no notification, but while the flag is
true it transitions to offline and notifies all registered entities. -/
theorem C1_theorem (p : String) (hp : p ≠ CONNECTED_ONLINE) :
    availability_received false p = (false, false)
    ∧ availability_received true p = (false, true) := by
  have hb : (p == CONNECTED_ONLINE) = false := beq_eq_false_iff_ne.mpr hp
  constructor <;> simp [availability_received, hb]

/-- Witness for C1 at the concrete payload `"garbage"`. -/
theorem C1_witness :
    availability_received false "garbage" = (false, false)
    ∧ availability_received true "garbage" = (false, true) :=
  C1_theorem "garbage" (by decide)

/-- Claim C2 (counterexample): starting available in mode `auto` / fan
`auto`, inbound mode `"5"` flags the pending correction; a subsequent
inbound fan-speed `"0"` (auto) arriving before the correction task runs
does NOT cancel it — the flag stays set and the correction still publishes
`"1"` on `fan_speed_in`, contradicting "no correction publish happens". -/
theorem C2_counterexample :
    (PolarisClimateEntity.fan_speed_received
        (PolarisClimateEntity.mode_received
          { ClimateState.initial with
              _available := true, _attr_hvac_mode := "auto" } "5").1
        "0")._need_fan_auto_correction = true
    ∧ (PolarisClimateEntity._correct_fan_speed_for_mode
        (PolarisClimateEntity.fan_speed_received
          (PolarisClimateEntity.mode_received
            { ClimateState.initial with
                _available := true, _attr_hvac_mode := "auto" } "5").1
          "0")).2 = [("fan_speed_in", "1")] := by decide

/-- Claim C2 (amended): on inbound mode `"5"` while the displayed fan speed
is `auto`, the displayed mode becomes fan-only, the correction task is
spawned, and running it publishes `"1"` on `fan_speed_in` and sets the fan
to low.  A fan-speed message arriving before the correction runs cancels it
only when it is not `auto`: after inbound `"0"` the flag is still set and
the correction still publishes, while after a non-auto message such as
`"2"` the flag is cleared and the correction publishes nothing. -/
theorem C2_theorem (s : ClimateState)
    (hav : s._available = true) (hm : s._attr_hvac_mode ≠ "fan_only")
    (hf : s._attr_fan_mode = FAN_AUTO) :
    (PolarisClimateEntity.mode_received s "5").2 = true
    ∧ (PolarisClimateEntity.mode_received s "5").1._attr_hvac_mode = "fan_only"
    ∧ (PolarisClimateEntity.mode_received s "5").1._need_fan_auto_correction
        = true
    ∧ (PolarisClimateEntity._correct_fan_speed_for_mode
        (PolarisClimateEntity.mode_received s "5").1).2
        = [("fan_speed_in", "1")]
    ∧ (PolarisClimateEntity._correct_fan_speed_for_mode
        (PolarisClimateEntity.mode_received s "5").1).1._attr_fan_mode = FAN_LOW
    ∧ (PolarisClimateEntity.fan_speed_received
        (PolarisClimateEntity.mode_received s "5").1 "0")._need_fan_auto_correction
        = true
    ∧ (PolarisClimateEntity._correct_fan_speed_for_mode
        (PolarisClimateEntity.fan_speed_received
          (PolarisClimateEntity.mode_received s "5").1 "0")).2
        = [("fan_speed_in", "1")]
    ∧ (PolarisClimateEntity.fan_speed_received
        (PolarisClimateEntity.mode_received s "5").1 "2")._need_fan_auto_correction
        = false
    ∧ (PolarisClimateEntity._correct_fan_speed_for_mode
        (PolarisClimateEntity.fan_speed_received
          (PolarisClimateEntity.mode_received s "5").1 "2")).2 = [] := by
  obtain ⟨av, m, fan, sw, ct, tt, act, prev, nfc, subs⟩ := s
  simp only at hav hm hf
  subst hav hf
  simp [PolarisClimateEntity.mode_received,
    PolarisClimateEntity.fan_speed_received,
    PolarisClimateEntity._correct_fan_speed_for_mode,
    PolarisClimateEntity.async_set_fan_mode, PolarisClimateEntity.fan_modes,
    MQTT_TO_HVAC_MODE, MQTT_TO_HA_FAN, HA_TO_MQTT_FAN, FAN_SPEEDS,
    FAN_AUTO, FAN_LOW, List.lookup, hm]

/-- Witness for C2 at the concrete start state of the spec scenario
(available, mode `auto`, fan `auto`). -/
theorem C2_witness :
    (PolarisClimateEntity.mode_received
      { ClimateState.initial with _available := true, _attr_hvac_mode := "auto" }
      "5").2 = true
    ∧ (PolarisClimateEntity.mode_received
        { ClimateState.initial with _available := true, _attr_hvac_mode := "auto" }
        "5").1._attr_hvac_mode = "fan_only"
    ∧ (PolarisClimateEntity.mode_received
        { ClimateState.initial with _available := true, _attr_hvac_mode := "auto" }
        "5").1._need_fan_auto_correction = true
    ∧ (PolarisClimateEntity._correct_fan_speed_for_mode
        (PolarisClimateEntity.mode_received
          { ClimateState.initial with _available := true, _attr_hvac_mode := "auto" }
          "5").1).2 = [("fan_speed_in", "1")]
    ∧ (PolarisClimateEntity._correct_fan_speed_for_mode
        (PolarisClimateEntity.mode_received
          { ClimateState.initial with _available := true, _attr_hvac_mode := "auto" }
          "5").1).1._attr_fan_mode = FAN_LOW
    ∧ (PolarisClimateEntity.fan_speed_received
        (PolarisClimateEntity.mode_received
          { ClimateState.initial with _available := true, _attr_hvac_mode := "auto" }
          "5").1 "0")._need_fan_auto_correction = true
    ∧ (PolarisClimateEntity._correct_fan_speed_for_mode
        (PolarisClimateEntity.fan_speed_received
          (PolarisClimateEntity.mode_received
            { ClimateState.initial with _available := true, _attr_hvac_mode := "auto" }
            "5").1 "0")).2 = [("fan_speed_in", "1")]
    ∧ (PolarisClimateEntity.fan_speed_received
        (PolarisClimateEntity.mode_received
          { ClimateState.initial with _available := true, _attr_hvac_mode := "auto" }
          "5").1 "2")._need_fan_auto_correction = false
    ∧ (PolarisClimateEntity._correct_fan_speed_for_mode
        (PolarisClimateEntity.fan_speed_received
          (PolarisClimateEntity.mode_received
            { ClimateState.initial with _available := true, _attr_hvac_mode := "auto" }
            "5").1 "2")).2 = [] :=
  C2_theorem
    { ClimateState.initial with _available := true, _attr_hvac_mode := "auto" }
    rfl (by decide) rfl

/-- Claim C3: a user `set_hvac_mode(fan_only)` issued while available from
any non-fan-only mode with fan `auto` sets the fan to low inline — the
`"1"` publish on `fan_speed_in` precedes the `"5"` publish on `mode_in` —
and ends with mode fan-only / fan low; via the inbound path (mode `"5"`
then the spawned correction task) the net end state is also fan low. -/
theorem C3_theorem (s : ClimateState)
    (hav : s._available = true) (hm : s._attr_hvac_mode ≠ "fan_only")
    (hf : s._attr_fan_mode = FAN_AUTO) :
    (PolarisClimateEntity.async_set_hvac_mode s "fan_only").1._attr_hvac_mode
        = "fan_only"
    ∧ (PolarisClimateEntity.async_set_hvac_mode s "fan_only").1._attr_fan_mode
        = FAN_LOW
    ∧ (PolarisClimateEntity.async_set_hvac_mode s "fan_only").2
        = [("fan_speed_in", "1"), ("mode_in", "5")]
    ∧ (PolarisClimateEntity._correct_fan_speed_for_mode
        (PolarisClimateEntity.mode_received s "5").1).1._attr_hvac_mode
        = "fan_only"
    ∧ (PolarisClimateEntity._correct_fan_speed_for_mode
        (PolarisClimateEntity.mode_received s "5").1).1._attr_fan_mode
        = FAN_LOW := by
  obtain ⟨av, m, fan, sw, ct, tt, act, prev, nfc, subs⟩ := s
  simp only at hav hm hf
  subst hav hf
  simp [PolarisClimateEntity.async_set_hvac_mode,
    PolarisClimateEntity.async_set_fan_mode, PolarisClimateEntity.fan_modes,
    PolarisClimateEntity.hvac_modes, PolarisClimateEntity.mode_received,
    PolarisClimateEntity._correct_fan_speed_for_mode,
    HA_TO_MQTT_MODES, HA_TO_MQTT_FAN, MODE_MAPPING, FAN_SPEEDS,
    MQTT_TO_HVAC_MODE, FAN_AUTO, FAN_LOW, List.lookup, hm]

/-- Witness for C3 at the spec scenario state (available, mode `cool`,
fan `auto`). -/
theorem C3_witness :
    (PolarisClimateEntity.async_set_hvac_mode
      { ClimateState.initial with _available := true, _attr_hvac_mode := "cool" }
      "fan_only").1._attr_hvac_mode = "fan_only"
    ∧ (PolarisClimateEntity.async_set_hvac_mode
        { ClimateState.initial with _available := true, _attr_hvac_mode := "cool" }
        "fan_only").1._attr_fan_mode = FAN_LOW
    ∧ (PolarisClimateEntity.async_set_hvac_mode
        { ClimateState.initial with _available := true, _attr_hvac_mode := "cool" }
        "fan_only").2 = [("fan_speed_in", "1"), ("mode_in", "5")]
    ∧ (PolarisClimateEntity._correct_fan_speed_for_mode
        (PolarisClimateEntity.mode_received
          { ClimateState.initial with _available := true, _attr_hvac_mode := "cool" }
          "5").1).1._attr_hvac_mode = "fan_only"
    ∧ (PolarisClimateEntity._correct_fan_speed_for_mode
        (PolarisClimateEntity.mode_received
          { ClimateState.initial with _available := true, _attr_hvac_mode := "cool" }
          "5").1).1._attr_fan_mode = FAN_LOW :=
  C3_theorem
    { ClimateState.initial with _available := true, _attr_hvac_mode := "cool" }
    rfl (by decide) rfl

/-- Claim C4 (counterexample): when the climate entity becomes unavailable
its displayed operating mode and fan speed are NOT reset: from mode `heat` /
fan `high` the displayed mode stays `heat` (not `off`) and the fan stays
`high` (not `auto`). -/
theorem C4_counterexample :
    (PolarisClimateEntity.on_availability_changed
      { ClimateState.initial with
          _available := true
          _attr_hvac_mode := "heat"
          _attr_fan_mode := FAN_HIGH }
      false).1._attr_hvac_mode = "heat"
    ∧ (PolarisClimateEntity.on_availability_changed
        { ClimateState.initial with
            _available := true
            _attr_hvac_mode := "heat"
            _attr_fan_mode := FAN_HIGH }
        false).1._attr_fan_mode = FAN_HIGH
    ∧ ("heat" : String) ≠ "off" ∧ FAN_HIGH ≠ FAN_AUTO := by decide

/-- Claim C4 (amended): whenever the device becomes unavailable every entity
first tears down its subscriptions and then resets, in that order, but only
to its own variant default: the climate entity resets its measured
temperature to unknown, its derived action to off and its pending
fan-correction flag (displayed mode, fan, swing and target stay as they
were); the temperature sensors reset to unknown; the target-temperature
number resets to the default 22; the mode selector resets to off; the
fan-speed selector resets to auto; the louvre switch resets to off. -/
theorem C4_theorem
    (c : ClimateState) (hc : c._available = true)
    (sen : SensorState) (hs : sen._available = true)
    (n : NumberState) (hn : n._available = true)
    (ms : SelectState) (hms : ms._available = true)
    (fs : SelectState) (hfs : fs._available = true)
    (sw : SwitchState) (hsw : sw._available = true) :
    PolarisClimateEntity.on_availability_changed c false =
      ({ c with
          _available := false
          _mqtt_subscriptions := []
          _attr_current_temperature := none
          _current_hvac_action := "off"
          _need_fan_auto_correction := false },
       [EntityAction.teardownSubscriptions, EntityAction.resetState,
        EntityAction.writeState])
    ∧ TemperatureSensor.on_availability_changed sen false =
      ({ sen with
          _available := false
          _mqtt_subscriptions := []
          _attr_native_value := none },
       [EntityAction.teardownSubscriptions, EntityAction.resetState,
        EntityAction.writeState])
    ∧ TargetTemperatureNumber.on_availability_changed n false =
      ({ n with
          _available := false
          _mqtt_subscriptions := []
          _attr_native_value := TEMP_DEFAULT },
       [EntityAction.teardownSubscriptions, EntityAction.resetState,
        EntityAction.writeState])
    ∧ ModeSelect.on_availability_changed ms false =
      ({ ms with
          _available := false
          _mqtt_subscriptions := []
          _current_mqtt := "0"
          _attr_current_option := "Выключено" },
       [EntityAction.teardownSubscriptions, EntityAction.resetState,
        EntityAction.writeState])
    ∧ FanSpeedSelect.on_availability_changed fs false =
      ({ fs with
          _available := false
          _mqtt_subscriptions := []
          _current_mqtt := "0"
          _attr_current_option := "Авто" },
       [EntityAction.teardownSubscriptions, EntityAction.resetState,
        EntityAction.writeState])
    ∧ BlindsSwitch.on_availability_changed sw false =
      ({ sw with
          _available := false
          _mqtt_subscriptions := []
          _state := false },
       [EntityAction.teardownSubscriptions, EntityAction.resetState,
        EntityAction.writeState]) := by
  obtain ⟨cav, m, fan, swm, ct, tt, act, prev, nfc, csub⟩ := c
  obtain ⟨sav, istt, nv, ssub⟩ := sen
  obtain ⟨nav, nnv, nsub⟩ := n
  obtain ⟨mav, mmq, mop, msub⟩ := ms
  obtain ⟨fav, fmq, fop, fsub⟩ := fs
  obtain ⟨wav, wst, wsub⟩ := sw
  simp only at hc hs hn hms hfs hsw
  subst hc hs hn hms hfs hsw
  refine ⟨?_, ?_, ?_, ?_, ?_, ?_⟩ <;>
    simp [PolarisClimateEntity.on_availability_changed,
      TemperatureSensor.on_availability_changed,
      TargetTemperatureNumber.on_availability_changed,
      ModeSelect.on_availability_changed,
      FanSpeedSelect.on_availability_changed,
      BlindsSwitch.on_availability_changed,
      on_availability_changed_base,
      PolarisClimateEntity._reset_state, TemperatureSensor._reset_state,
      TargetTemperatureNumber._reset_state, ModeSelect._reset_state,
      FanSpeedSelect._reset_state, BlindsSwitch._reset_state,
      MODE_SELECT_OPTIONS, FAN_SELECT_OPTIONS, MODE_MAPPING, FAN_SPEEDS,
      List.lookup]

/-- Witness for C4 at concrete available entity states. -/
theorem C4_witness :
    PolarisClimateEntity.on_availability_changed
      { ClimateState.initial with _available := true } false =
      ({ ClimateState.initial with _available := false },
       [EntityAction.teardownSubscriptions, EntityAction.resetState,
        EntityAction.writeState])
    ∧ TemperatureSensor.on_availability_changed ⟨true, false, some 20, []⟩ false =
      (⟨false, false, none, []⟩,
       [EntityAction.teardownSubscriptions, EntityAction.resetState,
        EntityAction.writeState])
    ∧ TargetTemperatureNumber.on_availability_changed ⟨true, 25, []⟩ false =
      (⟨false, TEMP_DEFAULT, []⟩,
       [EntityAction.teardownSubscriptions, EntityAction.resetState,
        EntityAction.writeState])
    ∧ ModeSelect.on_availability_changed ⟨true, "4", "Тепло", []⟩ false =
      (⟨false, "0", "Выключено", []⟩,
       [EntityAction.teardownSubscriptions, EntityAction.resetState,
        EntityAction.writeState])
    ∧ FanSpeedSelect.on_availability_changed ⟨true, "3", "Высокая", []⟩ false =
      (⟨false, "0", "Авто", []⟩,
       [EntityAction.teardownSubscriptions, EntityAction.resetState,
        EntityAction.writeState])
    ∧ BlindsSwitch.on_availability_changed ⟨true, true, []⟩ false =
      (⟨false, false, []⟩,
       [EntityAction.teardownSubscriptions, EntityAction.resetState,
        EntityAction.writeState]) :=
  C4_theorem
    { ClimateState.initial with _available := true } rfl
    ⟨true, false, some 20, []⟩ rfl
    ⟨true, 25, []⟩ rfl
    ⟨true, "4", "Тепло", []⟩ rfl
    ⟨true, "3", "Высокая", []⟩ rfl
    ⟨true, true, []⟩ rfl

/-- Claim C5 (counterexample): an inbound target-temperature payload
`"35.5"` is stored by the climate entity unvalidated, leaving the displayed
target temperature at 35.5 — neither an integer nor within `[16, 30]`. -/
theorem C5_counterexample :
    (PolarisClimateEntity.target_temperature_received
      { ClimateState.initial with _available := true }
      "35.5")._attr_target_temperature = mkRat 71 2
    ∧ ¬ (mkRat 71 2 ≤ TEMP_MAX) ∧ (mkRat 71 2).den ≠ 1 := by decide

/-- Claim C5 (amended): the target-temperature number entity keeps the
"integer in `[16, 30]`" invariant across every inbound update and outbound
command, and the climate entity's outbound temperature command always
displays an integer in `[16, 30]`; the climate entity's inbound
target-temperature handler, however, stores the parsed payload unchecked,
so only those components maintain the invariant. -/
theorem C5_theorem (s : NumberState) (hinv : tempInv s._attr_native_value) :
    (∀ p, tempInv
      (TargetTemperatureNumber.message_received s p)._attr_native_value)
    ∧ (∀ v, tempInv
      (TargetTemperatureNumber.async_set_native_value s v).1._attr_native_value)
    ∧ (∀ (c : ClimateState) (t : ℚ), c._available = true →
      tempInv ((PolarisClimateEntity.async_set_temperature
        c (some t)).1._attr_target_temperature)) := by
  refine ⟨?_, ?_, ?_⟩
  · intro p
    simp only [TargetTemperatureNumber.message_received]
    split
    · exact hinv
    · split
      · split
        · rename_i h
          exact ⟨Rat.den_intCast _, h⟩
        · exact hinv
      · exact hinv
  · intro v
    simp only [TargetTemperatureNumber.async_set_native_value]
    split
    · exact hinv
    · split
      · exact hinv
      · rename_i h
        push_neg at h
        exact ⟨Rat.den_intCast _, h.1, h.2⟩
  · intro c t hav
    simp only [PolarisClimateEntity.async_set_temperature, hav,
      Bool.true_eq_false, if_false]
    refine ⟨Rat.den_intCast _, ?_, ?_⟩
    · have h := le_pythonRound (max TEMP_MIN (min TEMP_MAX t))
        (le_max_left _ _)
      unfold TEMP_MIN
      exact_mod_cast h
    · have hle : max TEMP_MIN (min TEMP_MAX t) ≤ 30 := by
        have h1 : TEMP_MIN ≤ (30:ℚ) := by norm_num [TEMP_MIN]
        have h2 : min TEMP_MAX t ≤ 30 := by
          have h3 := min_le_left TEMP_MAX t
          rw [TEMP_MAX] at h3
          exact h3
        exact max_le h1 h2
      have h := pythonRound_le _ hle
      unfold TEMP_MAX
      exact_mod_cast h

/-- Witness for C5 at a concrete in-invariant number state, payloads and
command values, and a concrete climate command. -/
theorem C5_witness :
    tempInv (TargetTemperatureNumber.message_received
      ⟨true, 22, []⟩ "25")._attr_native_value
    ∧ tempInv (TargetTemperatureNumber.async_set_native_value
      ⟨true, 22, []⟩ 35).1._attr_native_value
    ∧ tempInv ((PolarisClimateEntity.async_set_temperature
      { ClimateState.initial with _available := true }
      (some 35)).1._attr_target_temperature) :=
  ⟨(C5_theorem ⟨true, 22, []⟩ (by decide)).1 "25",
   (C5_theorem ⟨true, 22, []⟩ (by decide)).2.1 35,
   (C5_theorem ⟨true, 22, []⟩ (by decide)).2.2
     { ClimateState.initial with _available := true } 35 rfl⟩

/-- Claim C6: while the device is unavailable every outbound user command —
climate set-mode / set-temperature / set-fan / set-swing, the number
entity's set-value, the louvre switch's turn-on / turn-off, and both
selectors' select-option — publishes nothing and leaves the entity state
unchanged. -/
theorem C6_theorem :
    (∀ (s : ClimateState), s._available = false →
      ∀ (m : String) (t : Option ℚ) (f sw : String),
        PolarisClimateEntity.async_set_hvac_mode s m = (s, [])
        ∧ PolarisClimateEntity.async_set_temperature s t = (s, [])
        ∧ PolarisClimateEntity.async_set_fan_mode s f = (s, [])
        ∧ PolarisClimateEntity.async_set_swing_mode s sw = (s, []))
    ∧ (∀ (n : NumberState), n._available = false → ∀ v,
        TargetTemperatureNumber.async_set_native_value n v = (n, []))
    ∧ (∀ (w : SwitchState), w._available = false →
        BlindsSwitch.async_turn_on w = (w, [])
        ∧ BlindsSwitch.async_turn_off w = (w, []))
    ∧ (∀ (sel : SelectState), sel._available = false → ∀ o,
        ModeSelect.async_select_option sel o = (sel, [])
        ∧ FanSpeedSelect.async_select_option sel o = (sel, [])) := by
  refine ⟨?_, ?_, ?_, ?_⟩
  · intro s h m t f sw
    refine ⟨?_, ?_, ?_, ?_⟩ <;>
      simp [PolarisClimateEntity.async_set_hvac_mode,
        PolarisClimateEntity.async_set_temperature,
        PolarisClimateEntity.async_set_fan_mode,
        PolarisClimateEntity.async_set_swing_mode, h]
  · intro n h v
    simp [TargetTemperatureNumber.async_set_native_value, h]
  · intro w h
    constructor <;>
      simp [BlindsSwitch.async_turn_on, BlindsSwitch.async_turn_off, h]
  · intro sel h o
    constructor <;>
      simp [ModeSelect.async_select_option,
        FanSpeedSelect.async_select_option, h]

/-- Witness for C6 at concrete unavailable entity states and commands. -/
theorem C6_witness :
    (PolarisClimateEntity.async_set_hvac_mode ClimateState.initial "cool"
        = (ClimateState.initial, [])
      ∧ PolarisClimateEntity.async_set_temperature ClimateState.initial (some 25)
        = (ClimateState.initial, [])
      ∧ PolarisClimateEntity.async_set_fan_mode ClimateState.initial FAN_HIGH
        = (ClimateState.initial, [])
      ∧ PolarisClimateEntity.async_set_swing_mode ClimateState.initial SWING_ON
        = (ClimateState.initial, []))
    ∧ TargetTemperatureNumber.async_set_native_value ⟨false, 22, []⟩ 25
        = (⟨false, 22, []⟩, [])
    ∧ (BlindsSwitch.async_turn_on ⟨false, false, []⟩ = (⟨false, false, []⟩, [])
      ∧ BlindsSwitch.async_turn_off ⟨false, false, []⟩ = (⟨false, false, []⟩, []))
    ∧ (ModeSelect.async_select_option ⟨false, "0", "Выключено", []⟩ "Холод"
        = (⟨false, "0", "Выключено", []⟩, [])
      ∧ FanSpeedSelect.async_select_option ⟨false, "0", "Авто", []⟩ "Низкая"
        = (⟨false, "0", "Авто", []⟩, [])) :=
  ⟨C6_theorem.1 ClimateState.initial rfl "cool" (some 25) FAN_HIGH SWING_ON,
   C6_theorem.2.1 ⟨false, 22, []⟩ rfl 25,
   C6_theorem.2.2.1 ⟨false, false, []⟩ rfl,
   ⟨(C6_theorem.2.2.2 ⟨false, "0", "Выключено", []⟩ rfl "Холод").1,
    (C6_theorem.2.2.2 ⟨false, "0", "Авто", []⟩ rfl "Низкая").2⟩⟩

/-- Claim C7: while available, an outbound target-temperature command
publishes exactly the clamped-to-`[16, 30]`, rounded requested value on
`temp_comfort_in` and optimistically displays that same value. -/
theorem C7_theorem (s : ClimateState) (hav : s._available = true) (t : ℚ) :
    (PolarisClimateEntity.async_set_temperature s (some t)).2
      = [("temp_comfort_in",
          toString (pythonRound (max TEMP_MIN (min TEMP_MAX t))))]
    ∧ (PolarisClimateEntity.async_set_temperature s (some t)).1._attr_target_temperature
      = (pythonRound (max TEMP_MIN (min TEMP_MAX t)) : ℚ) := by
  simp [PolarisClimateEntity.async_set_temperature, hav]

/-- Witness for C7: requesting 35 publishes payload `"30"` and displays
`30`, on the concrete available initial state. -/
theorem C7_witness :
    (PolarisClimateEntity.async_set_temperature
      { ClimateState.initial with _available := true } (some 35)).2
      = [("temp_comfort_in", "30")]
    ∧ (PolarisClimateEntity.async_set_temperature
        { ClimateState.initial with _available := true }
        (some 35)).1._attr_target_temperature = 30 := by
  have h := C7_theorem { ClimateState.initial with _available := true } rfl 35
  have hr : pythonRound (max TEMP_MIN (min TEMP_MAX (35:ℚ))) = 30 := by
    with_unfolding_all decide
  rw [hr] at h
  exact ⟨h.1.trans (by with_unfolding_all decide),
    h.2.trans (by with_unfolding_all decide)⟩

/-- Claim C8: on an unparseable inbound payload the temperature sensors set
their displayed value to unknown (`None`) — in particular `"abc"` — while
the mode selector, the fan-speed selector and the louvre switch leave their
prior displayed value unchanged on unrecognised payloads. -/
theorem C8_theorem :
    (∀ (s : SensorState) (p : String), s._available = true →
      parseDecimal p = none →
      (TemperatureSensor.message_received s p)._attr_native_value = none)
    ∧ (∀ (sel : SelectState) (p : String),
        MODE_SELECT_OPTIONS.lookup p = none →
        ModeSelect.message_received sel p = sel)
    ∧ (∀ (sel : SelectState) (p : String),
        FAN_SELECT_OPTIONS.lookup p = none →
        FanSpeedSelect.message_received sel p = sel)
    ∧ (∀ (w : SwitchState) (p : String),
        p ≠ BLINDS_ON → p ≠ BLINDS_OFF →
        BlindsSwitch.message_received w p = w)
    ∧ parseDecimal "abc" = none := by
  refine ⟨?_, ?_, ?_, ?_, by decide⟩
  · intro s p hav hp
    simp [TemperatureSensor.message_received, hav, hp]
  · intro sel p hp
    simp [ModeSelect.message_received, hp]
  · intro sel p hp
    simp [FanSpeedSelect.message_received, hp]
  · intro w p h1 h0
    simp [BlindsSwitch.message_received, h1, h0]

/-- Witness for C8: concrete `"abc"` payload nulls the sensor; a garbage
payload leaves the selectors and the switch unchanged. -/
theorem C8_witness :
    (TemperatureSensor.message_received
      ⟨true, false, some 20, []⟩ "abc")._attr_native_value = none
    ∧ ModeSelect.message_received ⟨true, "2", "Холод", []⟩ "abc"
        = ⟨true, "2", "Холод", []⟩
    ∧ FanSpeedSelect.message_received ⟨true, "2", "Средняя", []⟩ "abc"
        = ⟨true, "2", "Средняя", []⟩
    ∧ BlindsSwitch.message_received ⟨true, true, []⟩ "abc"
        = ⟨true, true, []⟩ :=
  ⟨C8_theorem.1 ⟨true, false, some 20, []⟩ "abc" rfl (by decide),
   C8_theorem.2.1 ⟨true, "2", "Холод", []⟩ "abc" (by decide),
   C8_theorem.2.2.1 ⟨true, "2", "Средняя", []⟩ "abc" (by decide),
   C8_theorem.2.2.2.1 ⟨true, true, []⟩ "abc" (by decide) (by decide)⟩

/-- Claim C9: for every (wire code, domain value, label) row of the mode,
fan-speed and louvre tables, encoding the domain value yields the wire code
and decoding the wire code yields the domain value, so both round trips
return to where they started. -/
theorem C9_theorem :
    (∀ p ∈ MODE_MAPPING,
      HA_TO_MQTT_MODES.lookup p.2.1 = some p.1
      ∧ MQTT_TO_HA_MODES.lookup p.1 = some p.2.1)
    ∧ (∀ p ∈ FAN_SPEEDS,
      HA_TO_MQTT_FAN.lookup p.2.1 = some p.1
      ∧ MQTT_TO_HA_FAN.lookup p.1 = some p.2.1)
    ∧ (∀ p ∈ SWING_MODES,
      HA_TO_MQTT_SWING.lookup p.2.1 = some p.1
      ∧ MQTT_TO_HA_SWING.lookup p.1 = some p.2.1) := by decide

/-- Witness for C9 at the fan-only row of the mode table. -/
theorem C9_witness :
    HA_TO_MQTT_MODES.lookup "fan_only" = some "5"
    ∧ MQTT_TO_HA_MODES.lookup "5" = some "fan_only" :=
  C9_theorem.1 ("5", "fan_only", "Вентиляция") (by decide)

/-- Claim C10: while an entity's availability flag is false, every inbound
MQTT message handler returns immediately: all five climate handlers, the
sensor, number, both selector and the switch handlers leave the entity state
unchanged (and the climate mode handler spawns no correction task). -/
theorem C10_theorem (p : String) :
    (∀ (s : ClimateState), s._available = false →
      PolarisClimateEntity.mode_received s p = (s, false)
      ∧ PolarisClimateEntity.temperature_received s p = s
      ∧ PolarisClimateEntity.target_temperature_received s p = s
      ∧ PolarisClimateEntity.fan_speed_received s p = s
      ∧ PolarisClimateEntity.swing_received s p = s)
    ∧ (∀ (s : SensorState), s._available = false →
        TemperatureSensor.message_received s p = s)
    ∧ (∀ (s : NumberState), s._available = false →
        TargetTemperatureNumber.message_received s p = s)
    ∧ (∀ (s : SelectState), s._available = false →
        ModeSelect.message_received s p = s
        ∧ FanSpeedSelect.message_received s p = s)
    ∧ (∀ (s : SwitchState), s._available = false →
        BlindsSwitch.message_received s p = s) := by
  refine ⟨?_, ?_, ?_, ?_, ?_⟩
  · intro s h
    refine ⟨?_, ?_, ?_, ?_, ?_⟩ <;>
      simp [PolarisClimateEntity.mode_received,
        PolarisClimateEntity.temperature_received,
        PolarisClimateEntity.target_temperature_received,
        PolarisClimateEntity.fan_speed_received,
        PolarisClimateEntity.swing_received, h]
  · intro s h
    simp [TemperatureSensor.message_received, h]
  · intro s h
    simp [TargetTemperatureNumber.message_received, h]
  · intro s h
    constructor <;>
      simp [ModeSelect.message_received, FanSpeedSelect.message_received, h]
  · intro s h
    simp [BlindsSwitch.message_received, h]

/-- Witness for C10 at concrete unavailable states and the payload `"5"`. -/
theorem C10_witness :
    (PolarisClimateEntity.mode_received ClimateState.initial "5"
        = (ClimateState.initial, false)
      ∧ PolarisClimateEntity.temperature_received ClimateState.initial "5"
        = ClimateState.initial
      ∧ PolarisClimateEntity.target_temperature_received ClimateState.initial "5"
        = ClimateState.initial
      ∧ PolarisClimateEntity.fan_speed_received ClimateState.initial "5"
        = ClimateState.initial
      ∧ PolarisClimateEntity.swing_received ClimateState.initial "5"
        = ClimateState.initial)
    ∧ TemperatureSensor.message_received ⟨false, false, some 20, []⟩ "5"
        = ⟨false, false, some 20, []⟩
    ∧ TargetTemperatureNumber.message_received ⟨false, 22, []⟩ "5"
        = ⟨false, 22, []⟩
    ∧ (ModeSelect.message_received ⟨false, "0", "Выключено", []⟩ "5"
        = ⟨false, "0", "Выключено", []⟩
      ∧ FanSpeedSelect.message_received ⟨false, "0", "Авто", []⟩ "5"
        = ⟨false, "0", "Авто", []⟩)
    ∧ BlindsSwitch.message_received ⟨false, true, []⟩ "5"
        = ⟨false, true, []⟩ := by
  have h := C10_theorem "5"
  exact ⟨h.1 ClimateState.initial rfl,
    h.2.1 ⟨false, false, some 20, []⟩ rfl,
    h.2.2.1 ⟨false, 22, []⟩ rfl,
    ⟨(h.2.2.2.1 ⟨false, "0", "Выключено", []⟩ rfl).1,
     (h.2.2.2.1 ⟨false, "0", "Авто", []⟩ rfl).2⟩,
    h.2.2.2.2 ⟨false, true, []⟩ rfl⟩
